import Mathlib

/-!
Verification development for the logo-chat repository.

The embedding models, from the TypeScript source:
  * `lib/image.ts`   — the artifact normalizer `enforcePng1024`;
  * `lib/store.ts`   — the in-memory per-session thread store (sessions,
    threads, messages, `lastImage` buffers).  JavaScript `Buffer` objects are
    modelled as references into an explicit heap so that byte-level aliasing
    (`Buffer.slice` returns a view over the same memory) is observable;
  * `lib/gemini.ts` (the revision carrying prompt templates and the Veo 3
    polling loop) — system-prompt/template resolution, image-response
    parsing, and the bounded operation-polling loop for video, with the
    network modelled as oracles;
  * `app/api/messages/route.ts` — the POST handler: base-image precedence,
    generation dispatch, persistence and message appends.
-/

/-! ## Image model (lib/image.ts) -/

/-- Image container format as reported by sharp's `metadata().format`. -/
inductive ImgFormat
| png
| jpeg
| webp
| other (name : String)
deriving DecidableEq, Repr

/-- Abstract pixel payload.  `cropResize` records the centered-crop /
cover-resize pipeline applied by `enforcePng1024`, keeping distinct inputs
distinct so nothing about the pixel transform is stubbed away. -/
inductive Pixels
| raw (id : Nat)
| cropResize (p : Pixels) (left top size target : Nat)
deriving DecidableEq, Repr

/-- A decoded image: dimensions, container format and pixel payload. -/
structure Img where
  width : Nat
  height : Nat
  format : ImgFormat
  pixels : Pixels
deriving DecidableEq, Repr

/-- A byte string: either it decodes to an image or it does not.
(`sharp(input).metadata()` throws on bytes it cannot parse.) -/
inductive Buf
| image (i : Img)
| undecodable (id : Nat)
deriving DecidableEq, Repr

/-- Constant `TARGET_SIZE` from lib/image.ts. -/
def TARGET_SIZE : Nat := 1024

/-- Error text sharp raises on bytes that are not a supported image. -/
def decodeErrorMsg : String := "Input buffer contains unsupported image format"

/-- The crop-and-reencode branch of `enforcePng1024`: centered square crop of
side `min w h` (floor division for the origin), cover-resize to
`TARGET_SIZE`, PNG re-encode. -/
def cropToPng (i : Img) : Img :=
  let size := min i.width i.height
  let left := max 0 ((i.width - size) / 2)
  let top := max 0 ((i.height - size) / 2)
  { width := TARGET_SIZE
    height := TARGET_SIZE
    format := ImgFormat.png
    pixels := Pixels.cropResize i.pixels left top size TARGET_SIZE }

/-- Function `enforcePng1024` from lib/image.ts.  Returns the input unchanged when it
is already a `TARGET_SIZE × TARGET_SIZE` PNG; otherwise center-crops to a
square and resizes to the target, re-encoding as PNG.  Undecodable input
surfaces as a decode error (the promise rejects). -/
def enforcePng1024 : Buf → Except String Buf
| Buf.undecodable _ => Except.error decodeErrorMsg
| Buf.image i =>
  if i.width = TARGET_SIZE ∧ i.height = TARGET_SIZE ∧ i.format = ImgFormat.png then
    Except.ok (Buf.image i)
  else
    Except.ok (Buf.image (cropToPng i))

/-! ## Claim C3 -/

/-- Claim C3: for every byte string decodable as an image, `enforcePng1024`
returns a PNG of exactly 1024×1024 pixels; it returns the input unchanged
when the input is already a 1024×1024 PNG; and it is idempotent:
normalizing an already-normalized output returns it unchanged. -/
theorem enforcePng1024_canonical_idempotent :
    (∀ i : Img, ∃ j : Img,
      enforcePng1024 (Buf.image i) = Except.ok (Buf.image j) ∧
      j.width = TARGET_SIZE ∧ j.height = TARGET_SIZE ∧ j.format = ImgFormat.png) ∧
    (∀ i : Img,
      i.width = TARGET_SIZE → i.height = TARGET_SIZE → i.format = ImgFormat.png →
      enforcePng1024 (Buf.image i) = Except.ok (Buf.image i)) ∧
    (∀ b b' : Buf, enforcePng1024 b = Except.ok b' →
      enforcePng1024 b' = Except.ok b') := by
  refine ⟨?_, ?_, ?_⟩
  · intro i
    by_cases h : i.width = TARGET_SIZE ∧ i.height = TARGET_SIZE ∧ i.format = ImgFormat.png
    · exact ⟨i, by simp [enforcePng1024, h], h.1, h.2.1, h.2.2⟩
    · exact ⟨cropToPng i, by simp [enforcePng1024, h], rfl, rfl, rfl⟩
  · intro i h1 h2 h3
    simp [enforcePng1024, h1, h2, h3]
  · intro b b' h
    cases b with
    | undecodable n => simp [enforcePng1024] at h
    | image i =>
      by_cases hc : i.width = TARGET_SIZE ∧ i.height = TARGET_SIZE ∧ i.format = ImgFormat.png
      · simp [enforcePng1024, hc] at h
        subst h
        simp [enforcePng1024, hc]
      · simp [enforcePng1024, hc] at h
        subst h
        simp [enforcePng1024, cropToPng]

/-- Claim C3 witness: a 2000×1500 JPEG input normalizes to a 1024×1024 PNG,
a 1024×1024 PNG input is returned unchanged, and normalization is idempotent
on the concrete output. -/
theorem enforcePng1024_canonical_idempotent_witness :
    (∃ j : Img,
      enforcePng1024 (Buf.image ⟨2000, 1500, ImgFormat.jpeg, Pixels.raw 0⟩) =
        Except.ok (Buf.image j) ∧
      j.width = TARGET_SIZE ∧ j.height = TARGET_SIZE ∧ j.format = ImgFormat.png) ∧
    enforcePng1024 (Buf.image ⟨1024, 1024, ImgFormat.png, Pixels.raw 1⟩) =
      Except.ok (Buf.image ⟨1024, 1024, ImgFormat.png, Pixels.raw 1⟩) ∧
    enforcePng1024 (Buf.image (cropToPng ⟨2000, 1500, ImgFormat.jpeg, Pixels.raw 0⟩)) =
      Except.ok (Buf.image (cropToPng ⟨2000, 1500, ImgFormat.jpeg, Pixels.raw 0⟩)) := by
  refine ⟨enforcePng1024_canonical_idempotent.1 ⟨2000, 1500, ImgFormat.jpeg, Pixels.raw 0⟩,
    enforcePng1024_canonical_idempotent.2.1 ⟨1024, 1024, ImgFormat.png, Pixels.raw 1⟩ rfl rfl rfl,
    enforcePng1024_canonical_idempotent.2.2
      (Buf.image ⟨2000, 1500, ImgFormat.jpeg, Pixels.raw 0⟩)
      (Buf.image (cropToPng ⟨2000, 1500, ImgFormat.jpeg, Pixels.raw 0⟩)) ?_⟩
  rfl

/-! ## JavaScript truthiness helpers -/

/-- JavaScript `a || b` on an optional string: an absent or empty string is
falsy, so it falls through to the default. -/
def strOr (s? : Option String) (d : String) : String :=
  match s? with
  | some s => if s = "" then d else s
  | none => d

/-- Truthiness of an optional string field (`undefined` and `""` are falsy). -/
def strTruthy : Option String → Bool
| some s => s ≠ ""
| none => false

/-! ## Thread store model (lib/store.ts) -/

/-- Message role. -/
inductive Role
| user
| assistant
deriving DecidableEq, Repr

/-- Record `ChatMessage` from lib/store.ts. -/
structure ChatMessage where
  id : String
  role : Role
  text : Option String := none
  imageUrl : Option String := none
  videoUrl : Option String := none
  timestamp : Nat
deriving DecidableEq, Repr

/-- Record `ThreadState` from lib/store.ts.  `lastImage` holds a reference into the
buffer heap (a JavaScript `Buffer` is a reference to a memory region). -/
structure ThreadState where
  messages : List ChatMessage
  lastImage : Option Nat := none
  lastImageMime : Option String := none
deriving DecidableEq, Repr

/-- Record `SessionState` from lib/store.ts: the per-session thread map. -/
structure SessionState where
  threads : List (String × ThreadState)
deriving DecidableEq, Repr

/-- The process-wide state: the session map plus an explicit heap of buffer
contents addressed by references, so that `Buffer` aliasing is observable. -/
structure Store where
  sessions : List (String × SessionState)
  heap : List (Nat × Buf)
  nextRef : Nat
deriving DecidableEq, Repr

/-- The empty process state. -/
def emptyStore : Store := { sessions := [], heap := [], nextRef := 0 }

/-- An empty thread as created by `getThread` on a miss. -/
def emptyThread : ThreadState := { messages := [], lastImage := none, lastImageMime := none }

/-- Association-list lookup (model of `Map.get`). -/
def alistFind? {α β : Type} [DecidableEq α] (k : α) : List (α × β) → Option β
| [] => none
| (a, b) :: t => if a = k then some b else alistFind? k t

/-- Association-list update-or-insert (model of `Map.set`). -/
def alistSet {α β : Type} [DecidableEq α] (k : α) (v : β) : List (α × β) → List (α × β)
| [] => [(k, v)]
| (a, b) :: t => if a = k then (k, v) :: t else (a, b) :: alistSet k v t

/-- Association-list removal (model of `Map.delete`). -/
def alistErase {α β : Type} [DecidableEq α] (k : α) : List (α × β) → List (α × β)
| [] => []
| (a, b) :: t => if a = k then t else (a, b) :: alistErase k t

theorem alistFind?_set_self {α β : Type} [DecidableEq α] (k : α) (v : β)
    (l : List (α × β)) : alistFind? k (alistSet k v l) = some v := by
  induction l with
  | nil => simp [alistFind?, alistSet]
  | cons hd t ih =>
    by_cases h : hd.1 = k
    · simp [alistFind?, alistSet, h]
    · simp [alistFind?, alistSet, h, ih]

theorem alistFind?_set_ne {α β : Type} [DecidableEq α] {k k' : α} (v : β)
    (l : List (α × β)) (h : k' ≠ k) :
    alistFind? k' (alistSet k v l) = alistFind? k' l := by
  have hkk : ¬ (k = k') := fun e => h e.symm
  induction l with
  | nil => simp [alistFind?, alistSet, hkk]
  | cons hd t ih =>
    obtain ⟨a, b⟩ := hd
    by_cases hh : a = k
    · subst hh
      simp [alistFind?, alistSet, hkk]
    · simp [alistFind?, alistSet, hh, ih]

theorem alistFind?_erase_ne {α β : Type} [DecidableEq α] {k k' : α}
    (l : List (α × β)) (h : k' ≠ k) :
    alistFind? k' (alistErase k l) = alistFind? k' l := by
  have hkk : ¬ (k = k') := fun e => h e.symm
  induction l with
  | nil => simp [alistFind?, alistErase]
  | cons hd t ih =>
    obtain ⟨a, b⟩ := hd
    by_cases hh : a = k
    · subst hh
      simp [alistFind?, alistErase, hkk]
    · simp [alistFind?, alistErase, hh, ih]

/-- Function `getSession` from lib/store.ts: return the session, creating an empty one
on first access. -/
def getSession (s : Store) (sid : String) : SessionState × Store :=
  match alistFind? sid s.sessions with
  | some sess => (sess, s)
  | none =>
    ({ threads := [] },
     { s with sessions := alistSet sid { threads := [] } s.sessions })

/-- Write a thread object back into its session's map (`session.threads.set`). -/
def setThread (s : Store) (sid tid : String) (t : ThreadState) : Store :=
  let gs := getSession s sid
  { gs.snd with sessions := alistSet sid { threads := alistSet tid t gs.fst.threads } gs.snd.sessions }

/-- Function `getThread` from lib/store.ts: return the thread, creating an empty one
(and logging a warning) on a miss. -/
def getThreadState (s : Store) (sid tid : String) : ThreadState × Store :=
  let gs := getSession s sid
  match alistFind? tid gs.fst.threads with
  | some t => (t, gs.snd)
  | none => (emptyThread, setThread gs.snd sid tid emptyThread)

/-- Function `addMessage` from lib/store.ts: `getThread` then `t.messages.push(msg)`. -/
def addMessage (s : Store) (sid tid : String) (msg : ChatMessage) : Store :=
  let gt := getThreadState s sid tid
  setThread gt.snd sid tid { gt.fst with messages := gt.fst.messages ++ [msg] }

/-- Function `setLastImage` from lib/store.ts: overwrite `lastImage`/`lastImageMime`,
leaving `messages` untouched. -/
def setLastImage (s : Store) (sid tid : String) (ref : Nat) (mime : String) : Store :=
  let gt := getThreadState s sid tid
  setThread gt.snd sid tid
    { gt.fst with lastImage := some ref, lastImageMime := some mime }

/-- Function `deleteThread` from lib/store.ts: remove the thread, reporting whether it
existed. -/
def deleteThread (s : Store) (sid tid : String) : Bool × Store :=
  let gs := getSession s sid
  ((alistFind? tid gs.fst.threads).isSome,
   { gs.snd with sessions := alistSet sid { threads := alistErase tid gs.fst.threads } gs.snd.sessions })

/-- Function `createThread` from lib/store.ts: create an empty thread unless the id is
taken.  The generated fallback id (`t-...`) is passed in as `genId`. -/
def createThread (s : Store) (sid : String) (threadId? : Option String) (genId : String) :
    String × Store :=
  let id := strOr threadId? genId
  let gs := getSession s sid
  match alistFind? id gs.fst.threads with
  | some _ => (id, gs.snd)
  | none => (id, setThread gs.snd sid id { messages := [] })

/-- A message carries media iff its `imageUrl` or `videoUrl` is truthy
(`m.imageUrl || m.videoUrl` in the source filter). -/
def hasMedia (m : ChatMessage) : Bool :=
  strTruthy m.imageUrl || strTruthy m.videoUrl

/-- The synthesized provenance message pushed by `cloneThread` when the
source has an image/video message. -/
def mkInherited (latest : ChatMessage) (now : Nat) : ChatMessage :=
  { id := toString now ++ "-inherited"
    role := Role.assistant
    text := some "Inherited from parent node"
    imageUrl := latest.imageUrl
    videoUrl := latest.videoUrl
    timestamp := now }

/-- Function `cloneThread` from lib/store.ts.  The message array is value-copied
(`[...source.messages]`); `lastImage` is carried over via
`source.lastImage.slice()`, and `Buffer.prototype.slice` returns a view over
the same memory, so the clone's artifact keeps the same heap reference.  The
latest image/video message, if any, yields an appended "inherited" assistant
message.  `genId` stands for the generated `t-...` id, `now` for
`Date.now()`. -/
def cloneThread (s : Store) (sid sourceThread : String) (newThreadId? : Option String)
    (genId : String) (now : Nat) : String × Store :=
  let gt := getThreadState s sid sourceThread
  let source := gt.fst
  let id := strOr newThreadId? genId
  let latest? := (source.messages.filter (fun m => hasMedia m)).getLast?
  let cloned : ThreadState :=
    { messages := source.messages ++
        (match latest? with
         | some m => [mkInherited m now]
         | none => [])
      lastImage := source.lastImage
      lastImageMime := source.lastImageMime }
  (id, setThread gt.snd sid id cloned)

/-- Read a thread without the creation side effect (observation helper). -/
def threadOf (s : Store) (sid tid : String) : Option ThreadState :=
  match alistFind? sid s.sessions with
  | some sess => alistFind? tid sess.threads
  | none => none

/-- The message log of a thread (empty when the thread does not exist). -/
def messagesOf (s : Store) (sid tid : String) : List ChatMessage :=
  ((threadOf s sid tid).getD emptyThread).messages

/-- The `lastImage` reference of a thread. -/
def lastImageOf (s : Store) (sid tid : String) : Option Nat :=
  ((threadOf s sid tid).getD emptyThread).lastImage

/-- The `lastImageMime` of a thread. -/
def lastImageMimeOf (s : Store) (sid tid : String) : Option String :=
  ((threadOf s sid tid).getD emptyThread).lastImageMime

/-- Allocate a fresh buffer (a `Buffer` coming into existence, e.g. from
decoding, the network, or `Buffer.from`). -/
def allocBuf (s : Store) (b : Buf) : Nat × Store :=
  (s.nextRef, { s with heap := alistSet s.nextRef b s.heap, nextRef := s.nextRef + 1 })

/-- Read a buffer's bytes through a reference. -/
def readBuf (s : Store) (ref : Nat) : Option Buf :=
  alistFind? ref s.heap

/-- Overwrite a buffer's bytes in place (the `buf[i] = ...` mutation that the
clone-independence invariant quantifies over). -/
def writeBuf (s : Store) (ref : Nat) (b : Buf) : Store :=
  { s with heap := alistSet ref b s.heap }

/-! ### Store lemmas -/

theorem getSession_snd_heap (s : Store) (sid : String) :
    (getSession s sid).snd.heap = s.heap := by
  cases h : alistFind? sid s.sessions <;> simp [getSession, h]

theorem getSession_snd_nextRef (s : Store) (sid : String) :
    (getSession s sid).snd.nextRef = s.nextRef := by
  cases h : alistFind? sid s.sessions <;> simp [getSession, h]

theorem setThread_heap (s : Store) (sid tid : String) (t : ThreadState) :
    (setThread s sid tid t).heap = s.heap := by
  simp [setThread, getSession_snd_heap]

theorem setThread_nextRef (s : Store) (sid tid : String) (t : ThreadState) :
    (setThread s sid tid t).nextRef = s.nextRef := by
  simp [setThread, getSession_snd_nextRef]

theorem threadOf_setThread_self (s : Store) (sid tid : String) (t : ThreadState) :
    threadOf (setThread s sid tid t) sid tid = some t := by
  simp [threadOf, setThread, alistFind?_set_self]

theorem threadOf_setThread_ne (s : Store) (sid tid tid' : String) (t : ThreadState)
    (h : tid' ≠ tid) :
    threadOf (setThread s sid tid t) sid tid' = threadOf s sid tid' := by
  cases hs : alistFind? sid s.sessions with
  | some sess =>
    simp [threadOf, setThread, getSession, hs, alistFind?_set_self,
      alistFind?_set_ne t _ h]
  | none =>
    have hkk : ¬ tid = tid' := fun e => h e.symm
    simp [threadOf, setThread, getSession, hs, alistFind?_set_self, alistFind?, hkk]

theorem getThreadState_fst (s : Store) (sid tid : String) :
    (getThreadState s sid tid).fst = (threadOf s sid tid).getD emptyThread := by
  cases hs : alistFind? sid s.sessions with
  | some sess =>
    cases ht : alistFind? tid sess.threads with
    | some t => simp [getThreadState, getSession, threadOf, hs, ht]
    | none => simp [getThreadState, getSession, threadOf, hs, ht]
  | none => simp [getThreadState, getSession, threadOf, hs, alistFind?]

theorem getThreadState_snd_of_exists (s : Store) (sid tid : String) (t : ThreadState)
    (h : threadOf s sid tid = some t) :
    getThreadState s sid tid = (t, s) := by
  cases hs : alistFind? sid s.sessions with
  | some sess =>
    have ht : alistFind? tid sess.threads = some t := by
      simpa [threadOf, hs] using h
    simp [getThreadState, getSession, hs, ht]
  | none => simp [threadOf, hs] at h

theorem threadOf_getThreadState_snd_self (s : Store) (sid tid : String) :
    threadOf (getThreadState s sid tid).snd sid tid =
      some ((threadOf s sid tid).getD emptyThread) := by
  cases hs : alistFind? sid s.sessions with
  | some sess =>
    cases ht : alistFind? tid sess.threads with
    | some t => simp [getThreadState, getSession, threadOf, hs, ht]
    | none =>
      simp only [getThreadState, getSession, hs, ht]
      rw [threadOf_setThread_self]
      simp [threadOf, hs, ht]
  | none =>
    simp only [getThreadState, getSession, hs, alistFind?]
    rw [threadOf_setThread_self]
    simp [threadOf, hs]

theorem threadOf_getThreadState_snd_ne (s : Store) (sid tid tid' : String)
    (h : tid' ≠ tid) :
    threadOf (getThreadState s sid tid).snd sid tid' = threadOf s sid tid' := by
  cases hs : alistFind? sid s.sessions with
  | some sess =>
    cases ht : alistFind? tid sess.threads with
    | some t => simp [getThreadState, getSession, hs, ht]
    | none =>
      simp only [getThreadState, getSession, hs, ht]
      rw [threadOf_setThread_ne _ _ _ _ _ h]
  | none =>
    simp only [getThreadState, getSession, hs, alistFind?]
    rw [threadOf_setThread_ne _ _ _ _ _ h]
    simp [threadOf, alistFind?_set_self, alistFind?, hs]

theorem getThreadState_snd_heap (s : Store) (sid tid : String) :
    (getThreadState s sid tid).snd.heap = s.heap := by
  cases hs : alistFind? sid s.sessions with
  | some sess =>
    cases ht : alistFind? tid sess.threads with
    | some t => simp [getThreadState, getSession, hs, ht]
    | none => simp [getThreadState, getSession, hs, ht, setThread_heap]
  | none =>
    simp [getThreadState, getSession, hs, alistFind?, setThread_heap]

theorem getThreadState_snd_nextRef (s : Store) (sid tid : String) :
    (getThreadState s sid tid).snd.nextRef = s.nextRef := by
  cases hs : alistFind? sid s.sessions with
  | some sess =>
    cases ht : alistFind? tid sess.threads with
    | some t => simp [getThreadState, getSession, hs, ht]
    | none => simp [getThreadState, getSession, hs, ht, setThread_nextRef]
  | none =>
    simp [getThreadState, getSession, hs, alistFind?, setThread_nextRef]

theorem addMessage_heap (s : Store) (sid tid : String) (m : ChatMessage) :
    (addMessage s sid tid m).heap = s.heap := by
  simp [addMessage, setThread_heap, getThreadState_snd_heap]

theorem addMessage_nextRef (s : Store) (sid tid : String) (m : ChatMessage) :
    (addMessage s sid tid m).nextRef = s.nextRef := by
  simp [addMessage, setThread_nextRef, getThreadState_snd_nextRef]

theorem setLastImage_heap (s : Store) (sid tid : String) (r : Nat) (mime : String) :
    (setLastImage s sid tid r mime).heap = s.heap := by
  simp [setLastImage, setThread_heap, getThreadState_snd_heap]

theorem setLastImage_nextRef (s : Store) (sid tid : String) (r : Nat) (mime : String) :
    (setLastImage s sid tid r mime).nextRef = s.nextRef := by
  simp [setLastImage, setThread_nextRef, getThreadState_snd_nextRef]

theorem readBuf_addMessage (s : Store) (sid tid : String) (m : ChatMessage) (r : Nat) :
    readBuf (addMessage s sid tid m) r = readBuf s r := by
  simp [readBuf, addMessage_heap]

theorem readBuf_setLastImage (s : Store) (sid tid : String) (ref r : Nat) (mime : String) :
    readBuf (setLastImage s sid tid ref mime) r = readBuf s r := by
  simp [readBuf, setLastImage_heap]

theorem threadOf_addMessage_self (s : Store) (sid tid : String) (m : ChatMessage) :
    threadOf (addMessage s sid tid m) sid tid =
      some { messages := messagesOf s sid tid ++ [m]
             lastImage := lastImageOf s sid tid
             lastImageMime := lastImageMimeOf s sid tid } := by
  simp [addMessage, threadOf_setThread_self, getThreadState_fst,
    messagesOf, lastImageOf, lastImageMimeOf]

theorem threadOf_addMessage_ne (s : Store) (sid tid tid' : String) (m : ChatMessage)
    (h : tid' ≠ tid) :
    threadOf (addMessage s sid tid m) sid tid' = threadOf s sid tid' := by
  unfold addMessage
  rw [threadOf_setThread_ne _ _ _ _ _ h, threadOf_getThreadState_snd_ne _ _ _ _ h]

theorem threadOf_setLastImage_self (s : Store) (sid tid : String) (ref : Nat) (mime : String) :
    threadOf (setLastImage s sid tid ref mime) sid tid =
      some { messages := messagesOf s sid tid
             lastImage := some ref
             lastImageMime := some mime } := by
  simp [setLastImage, threadOf_setThread_self, getThreadState_fst, messagesOf]

theorem threadOf_setLastImage_ne (s : Store) (sid tid tid' : String) (ref : Nat) (mime : String)
    (h : tid' ≠ tid) :
    threadOf (setLastImage s sid tid ref mime) sid tid' = threadOf s sid tid' := by
  unfold setLastImage
  rw [threadOf_setThread_ne _ _ _ _ _ h, threadOf_getThreadState_snd_ne _ _ _ _ h]

theorem messagesOf_addMessage_self (s : Store) (sid tid : String) (m : ChatMessage) :
    messagesOf (addMessage s sid tid m) sid tid = messagesOf s sid tid ++ [m] := by
  simp [messagesOf, threadOf_addMessage_self]

theorem lastImageOf_addMessage_self (s : Store) (sid tid : String) (m : ChatMessage) :
    lastImageOf (addMessage s sid tid m) sid tid = lastImageOf s sid tid := by
  simp [lastImageOf, threadOf_addMessage_self]

theorem lastImageMimeOf_addMessage_self (s : Store) (sid tid : String) (m : ChatMessage) :
    lastImageMimeOf (addMessage s sid tid m) sid tid = lastImageMimeOf s sid tid := by
  simp [lastImageMimeOf, threadOf_addMessage_self]

theorem messagesOf_setLastImage_self (s : Store) (sid tid : String) (ref : Nat) (mime : String) :
    messagesOf (setLastImage s sid tid ref mime) sid tid = messagesOf s sid tid := by
  simp [messagesOf, threadOf_setLastImage_self]

theorem lastImageOf_setLastImage_self (s : Store) (sid tid : String) (ref : Nat) (mime : String) :
    lastImageOf (setLastImage s sid tid ref mime) sid tid = some ref := by
  simp [lastImageOf, threadOf_setLastImage_self]

theorem lastImageMimeOf_setLastImage_self (s : Store) (sid tid : String) (ref : Nat)
    (mime : String) :
    lastImageMimeOf (setLastImage s sid tid ref mime) sid tid = some mime := by
  simp [lastImageMimeOf, threadOf_setLastImage_self]

theorem getThreadState_addMessage (s : Store) (sid tid : String) (m : ChatMessage) :
    getThreadState (addMessage s sid tid m) sid tid =
      ({ messages := messagesOf s sid tid ++ [m]
         lastImage := lastImageOf s sid tid
         lastImageMime := lastImageMimeOf s sid tid }, addMessage s sid tid m) :=
  getThreadState_snd_of_exists _ _ _ _ (threadOf_addMessage_self s sid tid m)

theorem allocBuf_fst (s : Store) (b : Buf) : (allocBuf s b).fst = s.nextRef := rfl

theorem allocBuf_sessions (s : Store) (b : Buf) : (allocBuf s b).snd.sessions = s.sessions := rfl

theorem threadOf_allocBuf (s : Store) (b : Buf) (sid tid : String) :
    threadOf (allocBuf s b).snd sid tid = threadOf s sid tid := rfl

theorem readBuf_allocBuf_self (s : Store) (b : Buf) :
    readBuf (allocBuf s b).snd s.nextRef = some b := by
  simp [readBuf, allocBuf, alistFind?_set_self]

theorem readBuf_allocBuf_ne (s : Store) (b : Buf) (r : Nat) (h : r ≠ s.nextRef) :
    readBuf (allocBuf s b).snd r = readBuf s r := by
  simp only [readBuf, allocBuf]
  exact alistFind?_set_ne b _ h

theorem readBuf_writeBuf_self (s : Store) (r : Nat) (b : Buf) :
    readBuf (writeBuf s r b) r = some b := by
  simp [readBuf, writeBuf, alistFind?_set_self]

theorem readBuf_writeBuf_ne (s : Store) (r r' : Nat) (b : Buf) (h : r' ≠ r) :
    readBuf (writeBuf s r b) r' = readBuf s r' := by
  simp only [readBuf, writeBuf]
  exact alistFind?_set_ne b _ h

theorem threadOf_writeBuf (s : Store) (r : Nat) (b : Buf) (sid tid : String) :
    threadOf (writeBuf s r b) sid tid = threadOf s sid tid := rfl

theorem deleteThread_heap (s : Store) (sid tid : String) :
    (deleteThread s sid tid).snd.heap = s.heap := by
  simp [deleteThread, getSession_snd_heap]

theorem threadOf_deleteThread_ne (s : Store) (sid tid tid' : String) (h : tid' ≠ tid) :
    threadOf (deleteThread s sid tid).snd sid tid' = threadOf s sid tid' := by
  cases hs : alistFind? sid s.sessions with
  | some sess =>
    simp [threadOf, deleteThread, getSession, hs, alistFind?_set_self,
      alistFind?_erase_ne _ h]
  | none =>
    simp [threadOf, deleteThread, getSession, hs, alistFind?_set_self,
      alistFind?_erase_ne _ h, alistFind?]

/-! ## Generation client model (lib/gemini.ts, templates + polling revision) -/

/-- Constant `GEMINI_IMAGE_MODEL` (its default value; env override is configuration
outside the core). -/
def GEMINI_IMAGE_MODEL : String := "gemini-2.5-flash-image-preview"

/-- Constant `VEO_3_MODEL` (its default value). -/
def VEO_3_MODEL : String := "veo-3.0-generate-preview"

/-- One entry of `PROMPT_TEMPLATES` (the UI-only `icon` field is omitted). -/
structure PromptTemplate where
  name : String
  prompt : String
deriving DecidableEq, Repr

/-- Template guidance text for the `logo` template. -/
def LOGO_PROMPT : String :=
  "You are a logo-generation assistant using Gemini 2.5 Flash Image.\nAlways generate or edit a single logo at exactly 1024x1024 pixels.\nPrioritize simple, high-contrast, scalable vector-like aesthetics with clean silhouettes and minimal shapes.\nMaintain the existing composition unless the user explicitly requests a redesign.\nIf the user asks for an edit, treat the previous image as the base and apply the change.\nNever output non-1024x1024 images."

/-- Template guidance text for the `general` template. -/
def GENERAL_PROMPT : String :=
  "You are an image generation assistant using Gemini 2.5 Flash Image.\nGenerate high-quality, detailed images at exactly 1024x1024 pixels.\nFocus on photorealistic quality, rich details, and vibrant colors.\nIf the user asks for an edit, treat the previous image as the base and apply the change.\nCreate visually stunning and accurate representations of the user's request.\nNever output non-1024x1024 images."

/-- Template guidance text for the `artistic` template. -/
def ARTISTIC_PROMPT : String :=
  "You are an artistic image generation assistant using Gemini 2.5 Flash Image.\nCreate artistic, stylized images at exactly 1024x1024 pixels.\nFocus on creative interpretations, unique art styles, and expressive visuals.\nEmphasize artistic techniques like painting, illustration, digital art, or mixed media styles.\nIf the user asks for an edit, treat the previous image as the base and apply the change.\nNever output non-1024x1024 images."

/-- Template guidance text for the `product` template. -/
def PRODUCT_PROMPT : String :=
  "You are a product photography assistant using Gemini 2.5 Flash Image.\nGenerate clean, professional product images at exactly 1024x1024 pixels.\nFocus on clear, well-lit product shots with clean backgrounds.\nEmphasize product details, textures, and commercial appeal.\nIf the user asks for an edit, treat the previous image as the base and apply the change.\nNever output non-1024x1024 images."

/-- Template guidance text for the `portrait` template. -/
def PORTRAIT_PROMPT : String :=
  "You are a portrait generation assistant using Gemini 2.5 Flash Image.\nGenerate detailed portraits and character images at exactly 1024x1024 pixels.\nFocus on facial features, expressions, and character design.\nEmphasize realistic proportions, lighting, and emotional depth.\nIf the user asks for an edit, treat the previous image as the base and apply the change.\nNever output non-1024x1024 images."

/-- Template guidance text for the `landscape` template. -/
def LANDSCAPE_PROMPT : String :=
  "You are a landscape and scene generation assistant using Gemini 2.5 Flash Image.\nGenerate beautiful landscapes, cityscapes, and environmental scenes at exactly 1024x1024 pixels.\nFocus on composition, atmospheric effects, and scenic beauty.\nEmphasize depth, lighting, and environmental storytelling.\nIf the user asks for an edit, treat the previous image as the base and apply the change.\nNever output non-1024x1024 images."

/-- Mapping `PROMPT_TEMPLATES`: template id → named guidance text. -/
def PROMPT_TEMPLATES : List (String × PromptTemplate) :=
  [("logo", { name := "Logo Design", prompt := LOGO_PROMPT }),
   ("general", { name := "General Images", prompt := GENERAL_PROMPT }),
   ("artistic", { name := "Artistic Images", prompt := ARTISTIC_PROMPT }),
   ("product", { name := "Product Images", prompt := PRODUCT_PROMPT }),
   ("portrait", { name := "Portrait & Character", prompt := PORTRAIT_PROMPT }),
   ("landscape", { name := "Landscapes & Scenes", prompt := LANDSCAPE_PROMPT })]

/-- Constant `VIDEO_SYSTEM_PROMPT`. -/
def VIDEO_SYSTEM_PROMPT : String :=
  "You are a video-generation assistant using Veo 3.\nGenerate high-quality videos with synchronized audio based on the user's description.\nCreate cinematic content with realistic physics and smooth motion.\nKeep videos engaging and professionally produced.\nIf provided with an image, use it as the starting frame for the video generation."

/-- Function `getSystemPrompt`: the video model id forces the video guidance; a truthy
template id that keys `PROMPT_TEMPLATES` selects its prompt; anything else
falls back to the logo prompt. -/
def getSystemPrompt (modelId? templateId? : Option String) : String :=
  if modelId? = some "veo-3.0-generate-preview" then VIDEO_SYSTEM_PROMPT
  else
    match templateId? with
    | some t =>
      if t = "" then LOGO_PROMPT
      else
        match alistFind? t PROMPT_TEMPLATES with
        | some entry => entry.prompt
        | none => LOGO_PROMPT
    | none => LOGO_PROMPT

/-- The characters of the `/gemini/i` pattern. -/
def geminiChars : List Char := ['g', 'e', 'm', 'i', 'n', 'i']

/-- Case-insensitive prefix test over character lists. -/
def ciPrefixTest : List Char → List Char → Bool
| [], _ => true
| _ :: _, [] => false
| p :: ps, c :: cs => (p = c.toLower) && ciPrefixTest ps cs

/-- Scan for a case-insensitive occurrence of `gemini`. -/
def hasGeminiAux : List Char → Bool
| [] => false
| c :: cs => ciPrefixTest geminiChars (c :: cs) || hasGeminiAux cs

/-- Case-insensitive test for the image-model naming pattern `/gemini/i`. -/
def hasGemini (s : String) : Bool :=
  hasGeminiAux s.data

/-- Model selection in `generateOrEditImage`:
`modelId && /gemini/i.test(modelId) ? modelId : GEMINI_IMAGE_MODEL`. -/
def resolveImageModel (modelId? : Option String) : String :=
  match modelId? with
  | some m => if m ≠ "" ∧ hasGemini m then m else GEMINI_IMAGE_MODEL
  | none => GEMINI_IMAGE_MODEL

/-! ### Image response parsing (generateOrEditImage) -/

/-- An inline-data record found under `inline_data`/`inlineData`/`file_data`/
`fileData`: its `data` field (when a string) and declared MIME type (when a
string, from `mime_type` or `mimeType`). -/
structure InlinePayload where
  data : Option String
  mime : Option String
deriving DecidableEq, Repr

/-- One part of a candidate's content: its inline-data record, if any, and
its `text` field, if a string. -/
structure RespPart where
  inline : Option InlinePayload
  text : Option String
deriving DecidableEq, Repr

/-- A candidate's `content` (when a record): its `parts` array. -/
structure RespContent where
  parts : List RespPart
deriving DecidableEq, Repr

/-- One entry of `candidates`. -/
structure RespCandidate where
  content : Option RespContent
deriving DecidableEq, Repr

/-- One entry of the experimental top-level `images` array (only `mime_type`
is consulted here, not `mimeType`). -/
structure ImagesEntry where
  data : Option String
  mime : Option String
deriving DecidableEq, Repr

/-- The response JSON as far as the parser inspects it. -/
structure GenResponse where
  candidates : List RespCandidate
  images : List ImagesEntry
deriving DecidableEq, Repr

/-- The parsed result: a base64 payload plus MIME type. -/
structure ParsedImage where
  data : String
  mimeType : String
deriving DecidableEq, Repr

/-- Characters allowed in the data-URI image subtype by the regex
`[a-zA-Z0-9.+-]`. -/
def isMimeSubtypeChar (c : Char) : Bool :=
  c.isAlpha || c.isDigit || c = '.' || c = '+' || c = '-'

/-- Strip an exact character-list prefix, or fail. -/
def stripChars : List Char → List Char → Option (List Char)
| [], cs => some cs
| _ :: _, [] => none
| p :: ps, c :: cs => if p = c then stripChars ps cs else none

/-- The data-URI text match: `startsWith("data:image/")` guard plus the regex
`^data:(image\/[a-zA-Z0-9.+-]+);base64,(.*)$` — group 1 is the MIME type,
group 2 the payload (the greedy subtype run cannot cross the `;`). -/
def parseDataUri (t : String) : Option ParsedImage :=
  match stripChars "data:image/".data t.data with
  | none => none
  | some rest =>
    let sub := rest.takeWhile isMimeSubtypeChar
    let after := rest.drop sub.length
    match stripChars ";base64,".data after with
    | none => none
    | some payload =>
      if sub = [] then none
      else some { data := String.mk payload, mimeType := String.mk ("image/".data ++ sub) }

/-- The per-part check inside the candidates loop: inline data first (with
declared MIME type or `image/png` default), then the data-URI text match. -/
def partHit (p : RespPart) : Option ParsedImage :=
  match p.inline with
  | some ip =>
    match ip.data with
    | some d => some { data := d, mimeType := ip.mime.getD "image/png" }
    | none =>
      match p.text with
      | some t => parseDataUri t
      | none => none
  | none =>
    match p.text with
    | some t => parseDataUri t
    | none => none

/-- The inner parts loop: first part with a hit wins. -/
def scanParts : List RespPart → Option ParsedImage
| [] => none
| p :: rest =>
  match partHit p with
  | some r => some r
  | none => scanParts rest

/-- The outer candidates loop (candidates without record content are
skipped). -/
def scanCandidates : List RespCandidate → Option ParsedImage
| [] => none
| c :: rest =>
  match c.content with
  | none => scanCandidates rest
  | some ct =>
    match scanParts ct.parts with
    | some r => some r
    | none => scanCandidates rest

/-- Error text of the no-artifact failure. -/
def noImagePayloadMsg : String := "Gemini did not return an image payload"

/-- The response parsing of `generateOrEditImage`: candidates scan, then the
top-level `images[0]` fallback, then the no-artifact error. -/
def parseImageResponse (j : GenResponse) : Except String ParsedImage :=
  match scanCandidates j.candidates with
  | some r => Except.ok r
  | none =>
    match j.images.head? with
    | some e =>
      match e.data with
      | some d => Except.ok { data := d, mimeType := e.mime.getD "image/png" }
      | none => Except.error noImagePayloadMsg
    | none => Except.error noImagePayloadMsg

/-- All content parts of the response, across candidates, in scan order. -/
def allParts (j : GenResponse) : List RespPart :=
  j.candidates.foldr
    (fun c acc =>
      (match c.content with
       | some ct => ct.parts
       | none => []) ++ acc) []

/-- Modelled from the claim's wording for the refutation of C7: first every
inline-data part across the candidate content, then every data-URI text
part, then the top-level `images` fallback. -/
def parseImageClaimOrder (j : GenResponse) : Except String ParsedImage :=
  let inlineHit := (allParts j).filterMap
    (fun p =>
      match p.inline with
      | some ip =>
        match ip.data with
        | some d => some ({ data := d, mimeType := ip.mime.getD "image/png" } : ParsedImage)
        | none => none
      | none => none)
  let textHit := (allParts j).filterMap
    (fun p =>
      match p.text with
      | some t => parseDataUri t
      | none => none)
  match inlineHit.head? with
  | some r => Except.ok r
  | none =>
    match textHit.head? with
    | some r => Except.ok r
    | none =>
      match j.images.head? with
      | some e =>
        match e.data with
        | some d => Except.ok { data := d, mimeType := e.mime.getD "image/png" }
        | none => Except.error noImagePayloadMsg
      | none => Except.error noImagePayloadMsg

/-! ### Video generation polling (generateVideo) -/

/-- Poll interval in milliseconds (`setTimeout(resolve, 5000)`): one wait of
five time units before each status check. -/
def POLL_INTERVAL : Nat := 5000

/-- Constant `maxAttempts = 40` in the polling loop. -/
def MAX_POLL_ATTEMPTS : Nat := 40

/-- The `video.uri` holder inside a generated-videos entry. -/
structure VideoFileRef where
  uri : Option String
deriving DecidableEq, Repr

/-- One entry of `result.generated_videos` (its `video` field when a
record). -/
structure GeneratedVideo where
  video : Option VideoFileRef
deriving DecidableEq, Repr

/-- The operation's `result` record as far as it is inspected:
`generated_videos` when it is an array. -/
structure OpResult where
  generated_videos : Option (List GeneratedVideo)
deriving DecidableEq, Repr

/-- One poll of the operations endpoint: a non-2xx status, a body that is
not a record, or a record with `done`/`error`/`result` fields (`done` is
whether `done === true`; `error` is present iff truthy). -/
inductive PollReply
| httpErr (status : Nat)
| notRecord
| reply (done : Bool) (error : Option String) (result : Option OpResult)

/-- Outcomes of `generateVideo`, matching its throw points and success. -/
inductive VideoOutcome
| success (video : Buf)
| startHttpError (status : Nat)
| invalidOperation
| checkHttpError (status : Nat)
| downloadError (status : Nat)
| noVideoFound
| operationError (err : String)
| timeout
deriving DecidableEq, Repr

/-- The completed-operation branch: walk `result.generated_videos[0].video.uri`
and download; any missing piece is the completed-but-no-video error. -/
def extractVideo (download : String → Except Nat Buf) (result? : Option OpResult) :
    VideoOutcome :=
  match result? with
  | some r =>
    match r.generated_videos with
    | some vs =>
      match vs.head? with
      | some fv =>
        match fv.video with
        | some vf =>
          match vf.uri with
          | some u =>
            match download u with
            | Except.ok b => VideoOutcome.success b
            | Except.error c => VideoOutcome.downloadError c
          | none => VideoOutcome.noVideoFound
        | none => VideoOutcome.noVideoFound
      | none => VideoOutcome.noVideoFound
    | none => VideoOutcome.noVideoFound
  | none => VideoOutcome.noVideoFound

/-- The polling loop body: each iteration waits `POLL_INTERVAL`, then checks
attempt `i`; `done === true` extracts, a truthy `error` fails immediately,
anything else continues.  Returns the outcome together with the total time
spent waiting. -/
def runPolls (download : String → Except Nat Buf) (polls : Nat → PollReply) :
    Nat → Nat → VideoOutcome × Nat
| 0, _ => (VideoOutcome.timeout, 0)
| fuel + 1, i =>
  match polls i with
  | PollReply.httpErr c => (VideoOutcome.checkHttpError c, POLL_INTERVAL)
  | PollReply.notRecord =>
    let rest := runPolls download polls fuel (i + 1)
    (rest.fst, POLL_INTERVAL + rest.snd)
  | PollReply.reply done err result =>
    if done then (extractVideo download result, POLL_INTERVAL)
    else
      match err with
      | some e => (VideoOutcome.operationError e, POLL_INTERVAL)
      | none =>
        let rest := runPolls download polls fuel (i + 1)
        (rest.fst, POLL_INTERVAL + rest.snd)

/-- The initial `generateVideos` POST: a non-2xx status, an operation
resource with a `name`, or a body without one. -/
inductive StartReply
| httpErr (status : Nat)
| operation (name : String)
| invalid

/-- The network oracles consumed by `generateVideo`. -/
structure VideoEnv where
  start : StartReply
  polls : Nat → PollReply
  download : String → Except Nat Buf

/-- Function `generateVideo`: start the long-running operation, then poll it at the
fixed interval for at most `MAX_POLL_ATTEMPTS` attempts. -/
def generateVideoModel (env : VideoEnv) : VideoOutcome × Nat :=
  match env.start with
  | StartReply.httpErr c => (VideoOutcome.startHttpError c, 0)
  | StartReply.invalid => (VideoOutcome.invalidOperation, 0)
  | StartReply.operation _ => runPolls env.download env.polls MAX_POLL_ATTEMPTS 0

/-- A poll reply that neither completes nor fails, so the loop keeps going. -/
def pollContinues : PollReply → Bool
| PollReply.httpErr _ => false
| PollReply.notRecord => true
| PollReply.reply done err _ => !done && err.isNone

/-- The timeout message thrown after the attempt ceiling. -/
def videoTimeoutMsg : String := "Veo 3 video generation timed out after 3+ minutes"

/-- How a `generateVideo` outcome surfaces to the route handler: the video
buffer on success, otherwise the thrown error message. -/
def videoOutcomeExcept : VideoOutcome → Except String Buf
| VideoOutcome.success v => Except.ok v
| VideoOutcome.startHttpError c => Except.error ("Veo 3 API error " ++ toString c)
| VideoOutcome.invalidOperation => Except.error "Veo 3 did not return a valid operation"
| VideoOutcome.checkHttpError c => Except.error ("Operation check failed: " ++ toString c)
| VideoOutcome.downloadError c => Except.error ("Failed to download video: " ++ toString c)
| VideoOutcome.noVideoFound =>
  Except.error "Video generation completed but no video found in response"
| VideoOutcome.operationError e => Except.error ("Veo 3 generation failed: " ++ e)
| VideoOutcome.timeout => Except.error videoTimeoutMsg

/-! ## Route handler model (app/api/messages/route.ts, POST) -/

/-- The base artifact handed to the generation client:
`{ data, mimeType }`. -/
structure BaseImage where
  data : Buf
  mimeType : String
deriving DecidableEq, Repr

/-- The request after body decoding (multipart/JSON parsing is the external
routing layer): prompt text (missing ⇒ `""`), optional uploaded bytes,
optional trimmed theme name, optional trimmed model id, thread id
(default `"default"`). -/
structure PostRequest where
  prompt : String
  upload : Option Buf
  themeName : Option String
  modelId : Option String
  threadId : String
deriving Repr

/-- External collaborators of the POST handler: the theme directory read
(`none` covers missing file, non-file, or read error), the generation calls
as functions of the supplied base image, the output-file persistence
returning the relative URL, and `Date.now()`. -/
structure RouteEnv where
  themeFile : String → Option Buf
  genImage : Option BaseImage → Except String Buf
  genVideo : Option BaseImage → Except String Buf
  persistImage : Except String String
  persistVideo : Except String String
  now : Nat

/-- What the handler returns: 400 without state change, 200 with the new
assistant message, 500 with an error-text assistant message appended, or an
exception escaping the handler (thrown outside its try/catch). -/
inductive PostOutcome
| badRequest (error : String)
| ok (thread : String) (message : ChatMessage)
| handledError (error : String)
| unhandled (error : String)
deriving DecidableEq, Repr

/-- Normalization of the uploaded base:
`uploadBuffer ? await enforcePng1024(uploadBuffer) : null`.  This runs
outside the handler's try/catch, so its error propagates out. -/
def normUpload : Option Buf → Except String (Option Buf)
| none => Except.ok none
| some ub => (enforcePng1024 ub).map some

/-- The theme branch: load the named file from `public/themes` and normalize
it, with every failure swallowed (`catch { themeBuffer = null }`). -/
def themeBufferOf (themeFile : String → Option Buf) (themeName? : Option String) :
    Option Buf :=
  match themeName? with
  | none => none
  | some n =>
    match themeFile n with
    | none => none
    | some raw =>
      match enforcePng1024 raw with
      | Except.ok b => some b
      | Except.error _ => none

/-- Base-image precedence: upload > theme > lastImage, with
`lastImageMime || "image/png"` for the stored artifact and `null` when none
is available. -/
def resolveBase (normalizedUpload themeBuffer lastBuf : Option Buf)
    (lastMime : Option String) : Option BaseImage :=
  match normalizedUpload with
  | some nb => some { data := nb, mimeType := "image/png" }
  | none =>
    match themeBuffer with
    | some tb => some { data := tb, mimeType := "image/png" }
    | none =>
      match lastBuf with
      | some b => some { data := b, mimeType := strOr lastMime "image/png" }
      | none => none

/-- The user message recorded in step 1 (`id = Date.now() + "-u"`). -/
def mkUserMsg (now : Nat) (prompt : String) : ChatMessage :=
  { id := toString now ++ "-u"
    role := Role.user
    text := some prompt
    timestamp := now }

/-- The assistant message appended in the catch block
(`id = Date.now() + "-a-err"`, `text = "Error: " + msg`). -/
def mkErrMsg (now : Nat) (e : String) : ChatMessage :=
  { id := toString now ++ "-a-err"
    role := Role.assistant
    text := some ("Error: " ++ e)
    timestamp := now }

/-- The assistant message for a generated video. -/
def mkVideoMsg (now : Nat) (url : String) : ChatMessage :=
  { id := toString now ++ "-a"
    role := Role.assistant
    videoUrl := some url
    timestamp := now }

/-- The assistant message for a generated image. -/
def mkImageMsg (now : Nat) (url : String) : ChatMessage :=
  { id := toString now ++ "-a"
    role := Role.assistant
    imageUrl := some url
    timestamp := now }

/-- The catch block: append the error-text assistant message and answer
500. -/
def appendError (env : RouteEnv) (s : Store) (sid tid : String) (e : String) :
    PostOutcome × Store :=
  (PostOutcome.handledError ("Error: " ++ e),
   addMessage s sid tid (mkErrMsg env.now e))

/-- The try block of the handler: resolve the base by precedence, branch on
the video model id, generate, normalize (image path), persist, update
`lastImage` (image path only) and append the assistant message; any error is
converted by the catch block. -/
def postGenerate (env : RouteEnv) (s : Store) (sid : String) (req : PostRequest)
    (threadState : ThreadState) (normalizedUpload : Option Buf) : PostOutcome × Store :=
  let themeBuffer := themeBufferOf env.themeFile req.themeName
  let lastBuf := threadState.lastImage.bind (fun r => readBuf s r)
  let baseImage := resolveBase normalizedUpload themeBuffer lastBuf threadState.lastImageMime
  if req.modelId = some "veo-3" then
    match env.genVideo baseImage with
    | Except.error e => appendError env s sid req.threadId e
    | Except.ok _video =>
      match env.persistVideo with
      | Except.error e => appendError env s sid req.threadId e
      | Except.ok relUrl =>
        let assistantMsg := mkVideoMsg env.now relUrl
        (PostOutcome.ok req.threadId assistantMsg,
         addMessage s sid req.threadId assistantMsg)
  else
    match env.genImage baseImage with
    | Except.error e => appendError env s sid req.threadId e
    | Except.ok image =>
      match enforcePng1024 image with
      | Except.error e => appendError env s sid req.threadId e
      | Except.ok png =>
        match env.persistImage with
        | Except.error e => appendError env s sid req.threadId e
        | Except.ok relUrl =>
          let alloc := allocBuf s png
          let s3 := setLastImage alloc.snd sid req.threadId alloc.fst "image/png"
          let assistantMsg := mkImageMsg env.now relUrl
          (PostOutcome.ok req.threadId assistantMsg,
           addMessage s3 sid req.threadId assistantMsg)

/-- The POST handler: reject a missing/empty prompt with 400; otherwise
append the user message, read the thread, normalize the upload (outside the
try/catch), and run the generation step. -/
def POST (env : RouteEnv) (s : Store) (sid : String) (req : PostRequest) :
    PostOutcome × Store :=
  if req.prompt = "" then (PostOutcome.badRequest "Missing message", s)
  else
    let s1 := addMessage s sid req.threadId (mkUserMsg env.now req.prompt)
    let gt := getThreadState s1 sid req.threadId
    match normUpload req.upload with
    | Except.error e => (PostOutcome.unhandled e, gt.snd)
    | Except.ok nu => postGenerate env gt.snd sid req gt.fst nu

/-! ## Shared concrete fixtures -/

/-- A 2000×1500 JPEG test image. -/
def imJpeg : Img := ⟨2000, 1500, ImgFormat.jpeg, Pixels.raw 0⟩

/-- A second decodable test image, already canonical. -/
def imPng : Img := ⟨1024, 1024, ImgFormat.png, Pixels.raw 1⟩

/-- A route environment whose oracles all fail (placeholder for paths that
never reach them). -/
def stubEnv : RouteEnv :=
  { themeFile := fun _ => none
    genImage := fun _ => Except.error "stub"
    genVideo := fun _ => Except.error "stub"
    persistImage := Except.error "stub"
    persistVideo := Except.error "stub"
    now := 0 }

/-! ## Claim C10 -/

/-- Claim C10: a POST whose prompt text is missing or empty is rejected with
400 "Missing message" before any state change — the store is returned
exactly as it was. -/
theorem post_missing_message_rejected (env : RouteEnv) (s : Store) (sid : String)
    (req : PostRequest) (h : req.prompt = "") :
    POST env s sid req = (PostOutcome.badRequest "Missing message", s) := by
  simp [POST, h]

/-- Claim C10 witness: the empty prompt on the empty store. -/
theorem post_missing_message_rejected_witness :
    POST stubEnv emptyStore "sess" ⟨"", none, none, none, "default"⟩ =
      (PostOutcome.badRequest "Missing message", emptyStore) :=
  post_missing_message_rejected stubEnv emptyStore "sess" ⟨"", none, none, none, "default"⟩ rfl

/-! ## Claim C1 -/

/-- Claim C1: base-artifact precedence.  With uploaded bytes present the
base is the normalized upload; with the upload absent and a theme available
(loadable and decodable) the base is the normalized theme; with both absent
the base is the thread's `lastArtifact` bytes unchanged (MIME defaulted to
image/png); with none of the three the base is `null` and the generation
call still proceeds (shown by a successful no-base image generation). -/
theorem base_artifact_precedence :
    (∀ (tf : String → Option Buf) (ub nb : Buf) (tn : Option String)
        (lb : Option Buf) (lm : Option String),
      enforcePng1024 ub = Except.ok nb →
      normUpload (some ub) = Except.ok (some nb) ∧
      resolveBase (some nb) (themeBufferOf tf tn) lb lm =
        some { data := nb, mimeType := "image/png" }) ∧
    (∀ (tf : String → Option Buf) (tn : String) (raw ntb : Buf)
        (lb : Option Buf) (lm : Option String),
      tf tn = some raw → enforcePng1024 raw = Except.ok ntb →
      themeBufferOf tf (some tn) = some ntb ∧
      resolveBase none (some ntb) lb lm = some { data := ntb, mimeType := "image/png" }) ∧
    (∀ (b : Buf) (lm : Option String),
      resolveBase none none (some b) lm =
        some { data := b, mimeType := strOr lm "image/png" }) ∧
    resolveBase none none none none = none ∧
    (∀ (env : RouteEnv) (s : Store) (sid : String) (req : PostRequest) (ib png : Buf)
        (url : String),
      req.prompt ≠ "" → req.upload = none → req.themeName = none →
      req.modelId ≠ some "veo-3" →
      lastImageOf s sid req.threadId = none →
      env.genImage none = Except.ok ib →
      enforcePng1024 ib = Except.ok png →
      env.persistImage = Except.ok url →
      (POST env s sid req).fst = PostOutcome.ok req.threadId (mkImageMsg env.now url)) := by
  refine ⟨?_, ?_, ?_, rfl, ?_⟩
  · intro tf ub nb tn lb lm h
    exact ⟨by simp [normUpload, Except.map, h], by simp [resolveBase]⟩
  · intro tf tn raw ntb lb lm h1 h2
    exact ⟨by simp [themeBufferOf, h1, h2], by simp [resolveBase]⟩
  · intro b lm
    simp [resolveBase]
  · intro env s sid req ib png url hp hup htn hm hl hg he hpi
    simp [POST, if_neg hp, hup, normUpload, getThreadState_addMessage,
      postGenerate, themeBufferOf, htn, lastImageOf_addMessage_self, hl,
      resolveBase, hm, hg, he, hpi]

/-- Claim C1 witness: all hypotheses discharged on concrete inputs — a
decodable upload, a decodable theme, a concrete stored artifact, and a
no-base POST that succeeds. -/
theorem base_artifact_precedence_witness :
    (normUpload (some (Buf.image imJpeg)) =
        Except.ok (some (Buf.image (cropToPng imJpeg))) ∧
      resolveBase (some (Buf.image (cropToPng imJpeg)))
        (themeBufferOf (fun _ => none) none) none none =
        some { data := Buf.image (cropToPng imJpeg), mimeType := "image/png" }) ∧
    (themeBufferOf (fun _ => some (Buf.image imJpeg)) (some "t.png") =
        some (Buf.image (cropToPng imJpeg)) ∧
      resolveBase none (some (Buf.image (cropToPng imJpeg))) none none =
        some { data := Buf.image (cropToPng imJpeg), mimeType := "image/png" }) ∧
    resolveBase none none (some (Buf.image imPng)) (some "image/png") =
      some { data := Buf.image imPng, mimeType := strOr (some "image/png") "image/png" } ∧
    (POST { stubEnv with
              genImage := (fun _ => Except.ok (Buf.image imPng))
              persistImage := Except.ok "/outputs/sess/0.png" }
        emptyStore "sess" ⟨"draw a cat logo", none, none, none, "default"⟩).fst =
      PostOutcome.ok "default" (mkImageMsg 0 "/outputs/sess/0.png") := by
  refine ⟨base_artifact_precedence.1 (fun _ => none) (Buf.image imJpeg)
      (Buf.image (cropToPng imJpeg)) none none none rfl,
    base_artifact_precedence.2.1 (fun _ => some (Buf.image imJpeg)) "t.png"
      (Buf.image imJpeg) (Buf.image (cropToPng imJpeg)) none none rfl rfl,
    base_artifact_precedence.2.2.1 (Buf.image imPng) (some "image/png"),
    base_artifact_precedence.2.2.2.2 _ emptyStore "sess"
      ⟨"draw a cat logo", none, none, none, "default"⟩ (Buf.image imPng)
      (Buf.image imPng) "/outputs/sess/0.png"
      (by decide) rfl rfl (by decide) rfl rfl ?_ rfl⟩
  simp [enforcePng1024, imPng, TARGET_SIZE]

/-! ## Claim C2 -/

/-- The clean-failure postcondition of the handler's catch block: a 500
outcome, exactly the user message plus one error-text assistant message
appended, and `lastImage`, its MIME type, and every buffer unchanged. -/
def FailsCleanly (env : RouteEnv) (s : Store) (sid : String) (req : PostRequest)
    (e : String) : Prop :=
  (POST env s sid req).fst = PostOutcome.handledError ("Error: " ++ e) ∧
  messagesOf (POST env s sid req).snd sid req.threadId =
    messagesOf s sid req.threadId ++ [mkUserMsg env.now req.prompt, mkErrMsg env.now e] ∧
  lastImageOf (POST env s sid req).snd sid req.threadId =
    lastImageOf s sid req.threadId ∧
  lastImageMimeOf (POST env s sid req).snd sid req.threadId =
    lastImageMimeOf s sid req.threadId ∧
  (∀ r, readBuf (POST env s sid req).snd r = readBuf s r)

theorem failsCleanly_core (env : RouteEnv) (s : Store) (sid : String) (req : PostRequest)
    (e : String)
    (h : POST env s sid req =
      appendError env (addMessage s sid req.threadId (mkUserMsg env.now req.prompt))
        sid req.threadId e) :
    FailsCleanly env s sid req e := by
  unfold FailsCleanly
  rw [h]
  unfold appendError
  refine ⟨rfl, ?_, ?_, ?_, ?_⟩
  · rw [messagesOf_addMessage_self, messagesOf_addMessage_self]
    simp
  · rw [lastImageOf_addMessage_self, lastImageOf_addMessage_self]
  · rw [lastImageMimeOf_addMessage_self, lastImageMimeOf_addMessage_self]
  · intro r
    rw [readBuf_addMessage, readBuf_addMessage]

/-- Claim C2 (amended): a failure inside the handler's try block — the model
call, normalization of the generated image, or persistence, on either the
image or the video path — appends exactly one user message and one
error-text assistant message, never rolls back the user message, and leaves
`lastArtifact` (and every stored buffer) unchanged.  A decode failure of the
uploaded base image instead escapes the handler after the user message, with
no assistant message (see the counterexample). -/
theorem failed_generation_appends_error (env : RouteEnv) (s : Store) (sid : String)
    (req : PostRequest) (nu : Option Buf) (e : String)
    (hp : req.prompt ≠ "") (hn : normUpload req.upload = Except.ok nu)
    (hmode :
      (req.modelId ≠ some "veo-3" ∧ ∀ b, env.genImage b = Except.error e) ∨
      (req.modelId ≠ some "veo-3" ∧ ∃ ib, (∀ b, env.genImage b = Except.ok ib) ∧
        enforcePng1024 ib = Except.error e) ∨
      (req.modelId ≠ some "veo-3" ∧ ∃ ib png, (∀ b, env.genImage b = Except.ok ib) ∧
        enforcePng1024 ib = Except.ok png ∧ env.persistImage = Except.error e) ∨
      (req.modelId = some "veo-3" ∧ ∀ b, env.genVideo b = Except.error e) ∨
      (req.modelId = some "veo-3" ∧ ∃ v, (∀ b, env.genVideo b = Except.ok v) ∧
        env.persistVideo = Except.error e)) :
    FailsCleanly env s sid req e := by
  apply failsCleanly_core
  rcases hmode with ⟨hm, hg⟩ | ⟨hm, ib, hg, he⟩ | ⟨hm, ib, png, hg, he, hpi⟩ |
    ⟨hm, hv⟩ | ⟨hm, v, hv, hpv⟩
  · simp [POST, if_neg hp, hn, getThreadState_addMessage, postGenerate, hm, hg]
  · simp [POST, if_neg hp, hn, getThreadState_addMessage, postGenerate, hm, hg, he]
  · simp [POST, if_neg hp, hn, getThreadState_addMessage, postGenerate, hm, hg, he, hpi]
  · simp [POST, if_neg hp, hn, getThreadState_addMessage, postGenerate, hm, hv]
  · simp [POST, if_neg hp, hn, getThreadState_addMessage, postGenerate, hm, hv, hpv]

/-- Claim C2 witness: a failing image-model call on the empty store fails
cleanly with the user turn followed by the error turn. -/
theorem failed_generation_appends_error_witness :
    FailsCleanly stubEnv emptyStore "sess" ⟨"draw", none, none, none, "default"⟩ "stub" :=
  failed_generation_appends_error stubEnv emptyStore "sess"
    ⟨"draw", none, none, none, "default"⟩ none "stub" (by decide) rfl
    (Or.inl ⟨by decide, fun _ => rfl⟩)

/-- Claim C2 counterexample: an undecodable uploaded base image makes the
upload normalization throw outside the handler's try/catch.  The thread
gains the user message but no assistant message, refuting the claim that
every generation-step failure (including base resolution) yields an
assistant error message. -/
theorem failed_generation_counterexample :
    (POST stubEnv emptyStore "sess"
        ⟨"draw", some (Buf.undecodable 7), none, none, "default"⟩).fst =
      PostOutcome.unhandled decodeErrorMsg ∧
    messagesOf (POST stubEnv emptyStore "sess"
        ⟨"draw", some (Buf.undecodable 7), none, none, "default"⟩).snd "sess" "default" =
      [mkUserMsg 0 "draw"] := by
  constructor <;> rfl

theorem messagesOf_allocBuf (s : Store) (b : Buf) (sid tid : String) :
    messagesOf (allocBuf s b).snd sid tid = messagesOf s sid tid := by
  simp [messagesOf, threadOf_allocBuf]

theorem lastImageMimeOf_allocBuf (s : Store) (b : Buf) (sid tid : String) :
    lastImageMimeOf (allocBuf s b).snd sid tid = lastImageMimeOf s sid tid := by
  simp [lastImageMimeOf, threadOf_allocBuf]

/-! ## Claim C9 -/

/-- Claim C9: on a successful video generation the handler persists the
bytes and appends an assistant message referencing them (videoUrl set, no
imageUrl) without touching the thread's `lastArtifact` — reference, MIME
type and every stored buffer are identical before and after — so a video
never becomes the base for a later generation; on a successful image
generation it does call `setLastImage`, pointing `lastArtifact` at a fresh
buffer holding the normalized bytes with MIME image/png. -/
theorem success_paths_frame (env : RouteEnv) (s : Store) (sid : String)
    (req : PostRequest) (nu : Option Buf)
    (hp : req.prompt ≠ "") (hn : normUpload req.upload = Except.ok nu) :
    (∀ v url, req.modelId = some "veo-3" →
      (∀ b, env.genVideo b = Except.ok v) → env.persistVideo = Except.ok url →
      (POST env s sid req).fst = PostOutcome.ok req.threadId (mkVideoMsg env.now url) ∧
      (mkVideoMsg env.now url).videoUrl = some url ∧
      (mkVideoMsg env.now url).imageUrl = none ∧
      messagesOf (POST env s sid req).snd sid req.threadId =
        messagesOf s sid req.threadId ++
          [mkUserMsg env.now req.prompt, mkVideoMsg env.now url] ∧
      lastImageOf (POST env s sid req).snd sid req.threadId =
        lastImageOf s sid req.threadId ∧
      lastImageMimeOf (POST env s sid req).snd sid req.threadId =
        lastImageMimeOf s sid req.threadId ∧
      (∀ r, readBuf (POST env s sid req).snd r = readBuf s r)) ∧
    (∀ ib png url, req.modelId ≠ some "veo-3" →
      (∀ b, env.genImage b = Except.ok ib) → enforcePng1024 ib = Except.ok png →
      env.persistImage = Except.ok url →
      (POST env s sid req).fst = PostOutcome.ok req.threadId (mkImageMsg env.now url) ∧
      messagesOf (POST env s sid req).snd sid req.threadId =
        messagesOf s sid req.threadId ++
          [mkUserMsg env.now req.prompt, mkImageMsg env.now url] ∧
      lastImageOf (POST env s sid req).snd sid req.threadId = some s.nextRef ∧
      readBuf (POST env s sid req).snd s.nextRef = some png ∧
      lastImageMimeOf (POST env s sid req).snd sid req.threadId = some "image/png") := by
  constructor
  · intro v url hm hv hpv
    have hpost : POST env s sid req =
        (PostOutcome.ok req.threadId (mkVideoMsg env.now url),
         addMessage (addMessage s sid req.threadId (mkUserMsg env.now req.prompt))
           sid req.threadId (mkVideoMsg env.now url)) := by
      simp [POST, if_neg hp, hn, getThreadState_addMessage, postGenerate, hm, hv, hpv]
    rw [hpost]
    refine ⟨rfl, rfl, rfl, ?_, ?_, ?_, ?_⟩
    · rw [messagesOf_addMessage_self, messagesOf_addMessage_self]
      simp
    · rw [lastImageOf_addMessage_self, lastImageOf_addMessage_self]
    · rw [lastImageMimeOf_addMessage_self, lastImageMimeOf_addMessage_self]
    · intro r
      rw [readBuf_addMessage, readBuf_addMessage]
  · intro ib png url hm hg he hpi
    have hnext :
        (addMessage s sid req.threadId (mkUserMsg env.now req.prompt)).nextRef = s.nextRef :=
      addMessage_nextRef s sid req.threadId (mkUserMsg env.now req.prompt)
    have hpost : POST env s sid req =
        (PostOutcome.ok req.threadId (mkImageMsg env.now url),
         addMessage
           (setLastImage
             (allocBuf (addMessage s sid req.threadId (mkUserMsg env.now req.prompt)) png).snd
             sid req.threadId
             (allocBuf (addMessage s sid req.threadId (mkUserMsg env.now req.prompt)) png).fst
             "image/png")
           sid req.threadId (mkImageMsg env.now url)) := by
      simp [POST, if_neg hp, hn, getThreadState_addMessage, postGenerate, hm, hg, he, hpi]
    rw [hpost]
    refine ⟨rfl, ?_, ?_, ?_, ?_⟩
    · rw [messagesOf_addMessage_self, messagesOf_setLastImage_self, messagesOf_allocBuf,
        messagesOf_addMessage_self]
      simp
    · rw [lastImageOf_addMessage_self, lastImageOf_setLastImage_self, allocBuf_fst, hnext]
    · rw [readBuf_addMessage, readBuf_setLastImage, ← hnext, readBuf_allocBuf_self]
    · rw [lastImageMimeOf_addMessage_self, lastImageMimeOf_setLastImage_self]

/-- Claim C9 witness: a successful video POST leaves `lastArtifact` alone
while appending the video message; a successful image POST stores the
normalized bytes at the fresh reference 0 of the empty store. -/
theorem success_paths_frame_witness :
    ((POST { stubEnv with
        genVideo := (fun _ => Except.ok (Buf.undecodable 3))
        persistVideo := Except.ok "/outputs/sess/0.mp4" }
      emptyStore "sess" ⟨"animate", none, none, some "veo-3", "default"⟩).fst =
        PostOutcome.ok "default" (mkVideoMsg 0 "/outputs/sess/0.mp4") ∧
      lastImageOf (POST { stubEnv with
          genVideo := (fun _ => Except.ok (Buf.undecodable 3))
          persistVideo := Except.ok "/outputs/sess/0.mp4" }
        emptyStore "sess" ⟨"animate", none, none, some "veo-3", "default"⟩).snd
          "sess" "default" = lastImageOf emptyStore "sess" "default") ∧
    ((POST { stubEnv with
        genImage := (fun _ => Except.ok (Buf.image imPng))
        persistImage := Except.ok "/outputs/sess/0.png" }
      emptyStore "sess" ⟨"draw", none, none, none, "default"⟩).fst =
        PostOutcome.ok "default" (mkImageMsg 0 "/outputs/sess/0.png") ∧
      readBuf (POST { stubEnv with
          genImage := (fun _ => Except.ok (Buf.image imPng))
          persistImage := Except.ok "/outputs/sess/0.png" }
        emptyStore "sess" ⟨"draw", none, none, none, "default"⟩).snd 0 =
          some (Buf.image imPng)) := by
  have hv := (success_paths_frame
      { stubEnv with
        genVideo := (fun _ => Except.ok (Buf.undecodable 3))
        persistVideo := Except.ok "/outputs/sess/0.mp4" }
      emptyStore "sess" ⟨"animate", none, none, some "veo-3", "default"⟩ none
      (by decide) rfl).1 (Buf.undecodable 3) "/outputs/sess/0.mp4" rfl (fun _ => rfl) rfl
  have hi := (success_paths_frame
      { stubEnv with
        genImage := (fun _ => Except.ok (Buf.image imPng))
        persistImage := Except.ok "/outputs/sess/0.png" }
      emptyStore "sess" ⟨"draw", none, none, none, "default"⟩ none
      (by decide) rfl).2 (Buf.image imPng) (Buf.image imPng) "/outputs/sess/0.png"
      (by decide) (fun _ => rfl) (by simp [enforcePng1024, imPng, TARGET_SIZE]) rfl
  exact ⟨⟨hv.1, hv.2.2.2.2.1⟩, ⟨hi.1, hi.2.2.2.1⟩⟩

/-! ## Claim C4 -/

/-- A store with one buffer (ref 0) allocated. -/
def c4Base : Store := (allocBuf emptyStore (Buf.image imPng)).snd

/-- A source thread `main` whose `lastArtifact` is buffer 0 and whose log
has one image-bearing assistant message. -/
def c4Src : Store :=
  addMessage (setLastImage c4Base "sess" "main" 0 "image/png") "sess" "main"
    { id := "1-a", role := Role.assistant, imageUrl := some "/outputs/sess/1.png",
      timestamp := 1 }

/-- The clone of `main` into `branch`. -/
def c4Clone : String × Store := cloneThread c4Src "sess" "main" (some "branch") "gen" 9

/-- Claim C4 (code-bug evidence): after `cloneThread`, the clone's
`lastArtifact` holds the same buffer reference as the source —
`source.lastImage.slice()` is `Buffer.prototype.slice`, which returns a view
over the same memory rather than the copy its comment claims — so one
in-place byte mutation through the shared reference is observable from both
threads' artifacts, contradicting the independently-owned-copy claim. -/
theorem cloneThread_artifact_aliasing :
    c4Clone.fst = "branch" ∧
    lastImageOf c4Clone.snd "sess" "branch" = lastImageOf c4Clone.snd "sess" "main" ∧
    lastImageOf c4Clone.snd "sess" "branch" = some 0 ∧
    readBuf c4Clone.snd 0 = some (Buf.image imPng) ∧
    readBuf (writeBuf c4Clone.snd 0 (Buf.undecodable 9)) 0 = some (Buf.undecodable 9) := by
  refine ⟨rfl, rfl, rfl, rfl, rfl⟩

/-! ## Claim C5 -/

/-- Claim C5: for a source thread with N messages, `cloneThread` yields a
thread with exactly N messages when no source message carries a truthy
image/video reference, and exactly N+1 when at least one does — the extra
message is a synthesized assistant message marked "Inherited from parent
node" that carries the image/video references of the source's latest
media message, appended after the copied log. -/
theorem cloneThread_message_counts (s : Store) (sid src : String) (T : ThreadState)
    (newId? : Option String) (genId : String) (now : Nat)
    (hT : threadOf s sid src = some T) :
    (T.messages.filter (fun m => hasMedia m) = [] →
      threadOf (cloneThread s sid src newId? genId now).snd sid
          (cloneThread s sid src newId? genId now).fst =
        some { messages := T.messages, lastImage := T.lastImage,
               lastImageMime := T.lastImageMime } ∧
      (messagesOf (cloneThread s sid src newId? genId now).snd sid
          (cloneThread s sid src newId? genId now).fst).length = T.messages.length) ∧
    (∀ lm, (T.messages.filter (fun m => hasMedia m)).getLast? = some lm →
      threadOf (cloneThread s sid src newId? genId now).snd sid
          (cloneThread s sid src newId? genId now).fst =
        some { messages := T.messages ++ [mkInherited lm now], lastImage := T.lastImage,
               lastImageMime := T.lastImageMime } ∧
      (messagesOf (cloneThread s sid src newId? genId now).snd sid
          (cloneThread s sid src newId? genId now).fst).length = T.messages.length + 1 ∧
      (mkInherited lm now).role = Role.assistant ∧
      (mkInherited lm now).text = some "Inherited from parent node" ∧
      (mkInherited lm now).imageUrl = lm.imageUrl ∧
      (mkInherited lm now).videoUrl = lm.videoUrl) := by
  constructor
  · intro hempty
    have h1 : threadOf (cloneThread s sid src newId? genId now).snd sid
        (cloneThread s sid src newId? genId now).fst =
        some { messages := T.messages, lastImage := T.lastImage,
               lastImageMime := T.lastImageMime } := by
      simp [cloneThread, getThreadState_snd_of_exists s sid src T hT, hempty,
        threadOf_setThread_self]
    exact ⟨h1, by simp [messagesOf, h1]⟩
  · intro lm hlast
    have h1 : threadOf (cloneThread s sid src newId? genId now).snd sid
        (cloneThread s sid src newId? genId now).fst =
        some { messages := T.messages ++ [mkInherited lm now], lastImage := T.lastImage,
               lastImageMime := T.lastImageMime } := by
      simp [cloneThread, getThreadState_snd_of_exists s sid src T hT, hlast,
        threadOf_setThread_self]
    exact ⟨h1, by simp [messagesOf, h1], rfl, rfl, rfl, rfl⟩

/-- A text-only user message (no media). -/
def msgU : ChatMessage := { id := "1-u", role := Role.user, text := some "hi", timestamp := 1 }

/-- An assistant message bearing an image reference. -/
def msgA : ChatMessage :=
  { id := "2-a", role := Role.assistant, imageUrl := some "/outputs/sess/2.png",
    timestamp := 2 }

/-- A source thread with one text-only message. -/
def c5SrcNoMedia : Store := setThread emptyStore "sess" "main" { messages := [msgU] }

/-- A source thread with a text message and an image message. -/
def c5SrcMedia : Store := setThread emptyStore "sess" "main" { messages := [msgU, msgA] }

/-- Claim C5 witness: cloning the no-media thread keeps 1 message; cloning
the media thread yields 3 = 2 + 1 messages, the last being the inherited
assistant message referencing the source's latest image. -/
theorem cloneThread_message_counts_witness :
    ((messagesOf (cloneThread c5SrcNoMedia "sess" "main" (some "b") "gen" 9).snd
        "sess" "b").length = 1) ∧
    ((messagesOf (cloneThread c5SrcMedia "sess" "main" (some "b") "gen" 9).snd
        "sess" "b").length = 2 + 1) ∧
    threadOf (cloneThread c5SrcMedia "sess" "main" (some "b") "gen" 9).snd "sess" "b" =
      some { messages := [msgU, msgA] ++ [mkInherited msgA 9] } := by
  have h1 := (cloneThread_message_counts c5SrcNoMedia "sess" "main" { messages := [msgU] }
    (some "b") "gen" 9 rfl).1 (by decide)
  have h2 := (cloneThread_message_counts c5SrcMedia "sess" "main" { messages := [msgU, msgA] }
    (some "b") "gen" 9 rfl).2 msgA (by decide)
  exact ⟨h1.2, h2.2.1, h2.1⟩

/-! ## Claim C8 -/

/-- Claim C8: the image-generation call uses the caller-supplied model id
exactly when it is truthy and matches the `/gemini/i` pattern, the
configured default image model otherwise; the system instruction is the
template text for the supplied style id, falling back to the default (logo)
template for an unknown or absent id, except that the video model id forces
the fixed video guidance text. -/
theorem model_and_system_prompt_selection :
    (∀ m : String, m ≠ "" → hasGemini m = true → resolveImageModel (some m) = m) ∧
    (∀ m : String, hasGemini m = false →
      resolveImageModel (some m) = GEMINI_IMAGE_MODEL) ∧
    resolveImageModel none = GEMINI_IMAGE_MODEL ∧
    (∀ t? : Option String, getSystemPrompt (some VEO_3_MODEL) t? = VIDEO_SYSTEM_PROMPT) ∧
    (∀ (m? : Option String) (t : String) (e : PromptTemplate),
      m? ≠ some VEO_3_MODEL → alistFind? t PROMPT_TEMPLATES = some e →
      getSystemPrompt m? (some t) = e.prompt) ∧
    (∀ (m? : Option String) (t : String),
      m? ≠ some VEO_3_MODEL → alistFind? t PROMPT_TEMPLATES = none →
      getSystemPrompt m? (some t) = LOGO_PROMPT) ∧
    (∀ m? : Option String, m? ≠ some VEO_3_MODEL →
      getSystemPrompt m? none = LOGO_PROMPT) := by
  refine ⟨?_, ?_, rfl, ?_, ?_, ?_, ?_⟩
  · intro m h1 h2
    simp [resolveImageModel, h1, h2]
  · intro m h
    simp [resolveImageModel, h]
  · intro t?
    simp [getSystemPrompt, VEO_3_MODEL]
  · intro m? t e hm he
    have ht : t ≠ "" := by
      intro h
      subst h
      simp [PROMPT_TEMPLATES, alistFind?] at he
    have hm' : ¬ (m? = some "veo-3.0-generate-preview") := by
      simpa [VEO_3_MODEL] using hm
    simp [getSystemPrompt, hm', ht, he]
  · intro m? t hm he
    have hm' : ¬ (m? = some "veo-3.0-generate-preview") := by
      simpa [VEO_3_MODEL] using hm
    by_cases ht : t = ""
    · simp [getSystemPrompt, hm', ht]
    · simp [getSystemPrompt, hm', ht, he]
  · intro m? hm
    have hm' : ¬ (m? = some "veo-3.0-generate-preview") := by
      simpa [VEO_3_MODEL] using hm
    simp [getSystemPrompt, hm']

set_option maxRecDepth 4000 in
/-- Claim C8 witness: a gemini-pattern id is kept, a non-matching id falls
back to the default model, the video model id forces the video guidance,
a known template id selects its text, and unknown/absent ids fall back to
the logo template. -/
theorem model_and_system_prompt_selection_witness :
    resolveImageModel (some "Gemini-2.0-flash") = "Gemini-2.0-flash" ∧
    resolveImageModel (some "imagen-3") = GEMINI_IMAGE_MODEL ∧
    getSystemPrompt (some VEO_3_MODEL) (some "artistic") = VIDEO_SYSTEM_PROMPT ∧
    getSystemPrompt none (some "artistic") = ARTISTIC_PROMPT ∧
    getSystemPrompt none (some "nope") = LOGO_PROMPT ∧
    getSystemPrompt (some "gemini-2.5-flash-image-preview") none = LOGO_PROMPT := by
  refine ⟨model_and_system_prompt_selection.1 "Gemini-2.0-flash" (by decide) (by decide),
    model_and_system_prompt_selection.2.1 "imagen-3" (by decide),
    model_and_system_prompt_selection.2.2.2.1 (some "artistic"),
    ?_,
    model_and_system_prompt_selection.2.2.2.2.2.1 none "nope" (by decide) (by decide),
    model_and_system_prompt_selection.2.2.2.2.2.2 (some "gemini-2.5-flash-image-preview")
      (by decide)⟩
  exact model_and_system_prompt_selection.2.2.2.2.1 none "artistic"
    { name := "Artistic Images", prompt := ARTISTIC_PROMPT } (by decide) (by decide)

/-! ## Claim C7 -/

theorem scanParts_append (a b : List RespPart) :
    scanParts (a ++ b) =
      match scanParts a with
      | some r => some r
      | none => scanParts b := by
  induction a with
  | nil => simp [scanParts]
  | cons p rest ih =>
    cases h : partHit p with
    | some r => simp [scanParts, h]
    | none => simp [scanParts, h, ih]

theorem scanCandidates_eq_scanParts_allParts (cs : List RespCandidate) :
    scanCandidates cs = scanParts (cs.foldr
      (fun c acc =>
        (match c.content with
         | some ct => ct.parts
         | none => []) ++ acc) []) := by
  induction cs with
  | nil => rfl
  | cons c rest ih =>
    cases hc : c.content with
    | none => simp [scanCandidates, hc, ih]
    | some ct =>
      cases hsp : scanParts ct.parts with
      | some r => simp [scanCandidates, hc, hsp, scanParts_append]
      | none => simp [scanCandidates, hc, hsp, scanParts_append, ih]

/-- Claim C7 (amended): the parser scans the candidates' content parts in
order, and for each part checks inline data first (returning its base64
payload with the declared MIME type, or image/png when none is declared)
and then the data-URI text match — so a data-URI text in an earlier part
wins over inline data in a later part; when no part matches it falls back
to the top-level `images` array's first element with inline data, and
otherwise fails with the no-artifact error. -/
theorem parse_image_scan_order :
    (∀ j : GenResponse, parseImageResponse j =
      match scanParts (allParts j) with
      | some r => Except.ok r
      | none =>
        match j.images.head? with
        | some e =>
          match e.data with
          | some d => Except.ok { data := d, mimeType := e.mime.getD "image/png" }
          | none => Except.error noImagePayloadMsg
        | none => Except.error noImagePayloadMsg) ∧
    (∀ (p : RespPart) (d m : String),
      p.inline = some { data := some d, mime := some m } →
      partHit p = some { data := d, mimeType := m }) ∧
    (∀ (p : RespPart) (d : String),
      p.inline = some { data := some d, mime := none } →
      partHit p = some { data := d, mimeType := "image/png" }) ∧
    (∀ (p : RespPart) (t : String),
      p.inline = none → p.text = some t → partHit p = parseDataUri t) ∧
    (∀ j : GenResponse, scanCandidates j.candidates = none → j.images = [] →
      parseImageResponse j = Except.error noImagePayloadMsg) := by
  refine ⟨?_, ?_, ?_, ?_, ?_⟩
  · intro j
    rw [parseImageResponse, allParts, ← scanCandidates_eq_scanParts_allParts]
  · intro p d m h
    simp [partHit, h]
  · intro p d h
    simp [partHit, h]
  · intro p t h1 h2
    simp [partHit, h1, h2]
  · intro j h1 h2
    simp [parseImageResponse, h1, h2]

/-- The response that separates the code's scan order from the claim's:
part 0 carries a data-URI text, part 1 carries inline data. -/
def c7Resp : GenResponse :=
  { candidates := [{ content := some { parts :=
      [{ inline := none, text := some "data:image/png;base64,AA" },
       { inline := some { data := some "BB", mime := some "image/jpeg" }, text := none }] } }]
    images := [] }

set_option maxRecDepth 4000 in
/-- Claim C7 counterexample: the code returns the data-URI text of the
earlier part, while the claimed inline-data-first order would return the
later part's inline payload — the two disagree on `c7Resp`. -/
theorem parse_image_scan_order_counterexample :
    parseImageResponse c7Resp = Except.ok { data := "AA", mimeType := "image/png" } ∧
    parseImageClaimOrder c7Resp = Except.ok { data := "BB", mimeType := "image/jpeg" } ∧
    ({ data := "AA", mimeType := "image/png" } : ParsedImage) ≠
      { data := "BB", mimeType := "image/jpeg" } := by
  refine ⟨?_, ?_, by decide⟩ <;> rfl

set_option maxRecDepth 4000 in
/-- Claim C7 witness: the per-part checks and the no-artifact failure
discharged on concrete parts and an empty response. -/
theorem parse_image_scan_order_witness :
    partHit { inline := some { data := some "BB", mime := some "image/jpeg" }, text := none } =
      some { data := "BB", mimeType := "image/jpeg" } ∧
    partHit { inline := some { data := some "CC", mime := none }, text := none } =
      some { data := "CC", mimeType := "image/png" } ∧
    partHit { inline := none, text := some "data:image/png;base64,AA" } =
      parseDataUri "data:image/png;base64,AA" ∧
    parseImageResponse { candidates := [], images := [] } =
      Except.error noImagePayloadMsg :=
  ⟨parse_image_scan_order.2.1 _ "BB" "image/jpeg" rfl,
   parse_image_scan_order.2.2.1 _ "CC" rfl,
   parse_image_scan_order.2.2.2.1 _ "data:image/png;base64,AA" rfl rfl,
   parse_image_scan_order.2.2.2.2 _ rfl rfl⟩

/-! ## Claim C6 -/

theorem runPolls_all_continue (download : String → Except Nat Buf) (polls : Nat → PollReply)
    (fuel i : Nat) (h : ∀ j, j < fuel → pollContinues (polls (i + j)) = true) :
    runPolls download polls fuel i = (VideoOutcome.timeout, fuel * POLL_INTERVAL) := by
  induction fuel generalizing i with
  | zero => simp [runPolls]
  | succ n ih =>
    have h0 : pollContinues (polls i) = true := by
      have := h 0 (Nat.succ_pos n)
      simpa using this
    have hrec : runPolls download polls n (i + 1) = (VideoOutcome.timeout, n * POLL_INTERVAL) := by
      apply ih
      intro j hj
      have := h (j + 1) (Nat.succ_lt_succ hj)
      rwa [show i + (j + 1) = i + 1 + j by omega] at this
    cases hp : polls i with
    | httpErr c =>
      rw [hp] at h0
      simp [pollContinues] at h0
    | notRecord =>
      simp [runPolls, hp, hrec, Nat.succ_mul, Nat.add_comm]
    | reply done err r =>
      rw [hp] at h0
      simp [pollContinues] at h0
      obtain ⟨hd, he⟩ := h0
      subst hd
      simp [runPolls, hp, he, hrec, Nat.succ_mul, Nat.add_comm]

theorem runPolls_error_first (download : String → Except Nat Buf) (polls : Nat → PollReply)
    (fuel i k : Nat) (e : String) (r : Option OpResult)
    (hk : k < fuel)
    (hcont : ∀ j, j < k → pollContinues (polls (i + j)) = true)
    (herr : polls (i + k) = PollReply.reply false (some e) r) :
    runPolls download polls fuel i = (VideoOutcome.operationError e, (k + 1) * POLL_INTERVAL) := by
  induction k generalizing fuel i with
  | zero =>
    cases fuel with
    | zero => omega
    | succ n =>
      have h0 : polls i = PollReply.reply false (some e) r := by simpa using herr
      simp [runPolls, h0]
  | succ m ih =>
    cases fuel with
    | zero => omega
    | succ n =>
      have h0 : pollContinues (polls i) = true := by
        have := hcont 0 (Nat.succ_pos m)
        simpa using this
      have hrec : runPolls download polls n (i + 1) =
          (VideoOutcome.operationError e, (m + 1) * POLL_INTERVAL) := by
        apply ih n (i + 1) (by omega)
        · intro j hj
          have := hcont (j + 1) (Nat.succ_lt_succ hj)
          rwa [show i + (j + 1) = i + 1 + j by omega] at this
        · rwa [show i + (m + 1) = i + 1 + m by omega] at herr
      cases hp : polls i with
      | httpErr c =>
        rw [hp] at h0
        simp [pollContinues] at h0
      | notRecord =>
        simp [runPolls, hp, hrec, Nat.succ_mul, Nat.add_comm, Nat.add_assoc]
        ring
      | reply done err rr =>
        rw [hp] at h0
        simp [pollContinues] at h0
        obtain ⟨hd, he'⟩ := h0
        subst hd
        simp [runPolls, hp, he', hrec, Nat.succ_mul, Nat.add_comm, Nat.add_assoc]
        ring

/-- Claim C6: video generation polls the operation at the fixed 5-time-unit
(5000 ms) interval for at most 40 attempts; when no poll within the ceiling
reports done or an error it terminates with the timeout failure (40 polls,
200 000 ms of waiting) and the route then appends a text-only assistant
message with neither image nor video reference; an error payload on any poll
fails immediately — later polls can be changed arbitrarily without altering
the outcome. -/
theorem video_polling_bounds :
    MAX_POLL_ATTEMPTS = 40 ∧ POLL_INTERVAL = 5000 ∧
    (∀ (env : VideoEnv) (nm : String),
      env.start = StartReply.operation nm →
      (∀ i, i < MAX_POLL_ATTEMPTS → pollContinues (env.polls i) = true) →
      generateVideoModel env = (VideoOutcome.timeout, MAX_POLL_ATTEMPTS * POLL_INTERVAL) ∧
      videoOutcomeExcept (generateVideoModel env).fst = Except.error videoTimeoutMsg) ∧
    (∀ (env : VideoEnv) (nm : String) (k : Nat) (e : String) (r : Option OpResult),
      env.start = StartReply.operation nm → k < MAX_POLL_ATTEMPTS →
      (∀ j, j < k → pollContinues (env.polls j) = true) →
      env.polls k = PollReply.reply false (some e) r →
      generateVideoModel env = (VideoOutcome.operationError e, (k + 1) * POLL_INTERVAL) ∧
      (∀ polls' : Nat → PollReply, (∀ j, j ≤ k → polls' j = env.polls j) →
        runPolls env.download polls' MAX_POLL_ATTEMPTS 0 =
          (VideoOutcome.operationError e, (k + 1) * POLL_INTERVAL))) ∧
    (∀ (env : RouteEnv) (s : Store) (sid : String) (req : PostRequest)
        (nu : Option Buf) (m : String),
      req.prompt ≠ "" → normUpload req.upload = Except.ok nu →
      req.modelId = some "veo-3" →
      (∀ b, env.genVideo b = Except.error m) →
      (POST env s sid req).fst = PostOutcome.handledError ("Error: " ++ m) ∧
      messagesOf (POST env s sid req).snd sid req.threadId =
        messagesOf s sid req.threadId ++
          [mkUserMsg env.now req.prompt, mkErrMsg env.now m] ∧
      (mkErrMsg env.now m).imageUrl = none ∧
      (mkErrMsg env.now m).videoUrl = none ∧
      lastImageOf (POST env s sid req).snd sid req.threadId =
        lastImageOf s sid req.threadId) := by
  refine ⟨rfl, rfl, ?_, ?_, ?_⟩
  · intro env nm hstart hcont
    have h1 : generateVideoModel env = (VideoOutcome.timeout, MAX_POLL_ATTEMPTS * POLL_INTERVAL) := by
      rw [generateVideoModel, hstart]
      apply runPolls_all_continue
      intro j hj
      simpa using hcont j hj
    exact ⟨h1, by rw [h1]; rfl⟩
  · intro env nm k e r hstart hk hcont herr
    constructor
    · rw [generateVideoModel, hstart]
      apply runPolls_error_first env.download env.polls MAX_POLL_ATTEMPTS 0 k e r hk
      · intro j hj
        simpa using hcont j hj
      · simpa using herr
    · intro polls' hagree
      apply runPolls_error_first env.download polls' MAX_POLL_ATTEMPTS 0 k e r hk
      · intro j hj
        rw [Nat.zero_add, hagree j (Nat.le_of_lt hj)]
        exact hcont j hj
      · rw [Nat.zero_add, hagree k (Nat.le_refl k)]
        exact herr
  · intro env s sid req nu m hp hn hm hv
    have hf := failsCleanly_core env s sid req m
      (by simp [POST, if_neg hp, hn, getThreadState_addMessage, postGenerate, hm, hv])
    exact ⟨hf.1, hf.2.1, rfl, rfl, hf.2.2.1⟩

/-- Claim C6 witness: an always-pending operation times out after the
40-poll ceiling; an error on the very first poll fails immediately; a
failing video generation appends the text-only error message. -/
theorem video_polling_bounds_witness :
    generateVideoModel
      { start := StartReply.operation "op"
        polls := fun _ => PollReply.reply false none none
        download := fun _ => Except.error 0 } =
      (VideoOutcome.timeout, MAX_POLL_ATTEMPTS * POLL_INTERVAL) ∧
    generateVideoModel
      { start := StartReply.operation "op"
        polls := fun _ => PollReply.reply false (some "boom") none
        download := fun _ => Except.error 0 } =
      (VideoOutcome.operationError "boom", (0 + 1) * POLL_INTERVAL) ∧
    (POST stubEnv emptyStore "sess"
        ⟨"animate", none, none, some "veo-3", "default"⟩).fst =
      PostOutcome.handledError ("Error: " ++ "stub") := by
  refine ⟨(video_polling_bounds.2.2.1
      { start := StartReply.operation "op"
        polls := fun _ => PollReply.reply false none none
        download := fun _ => Except.error 0 } "op" rfl (fun i _ => rfl)).1,
    (video_polling_bounds.2.2.2.1
      { start := StartReply.operation "op"
        polls := fun _ => PollReply.reply false (some "boom") none
        download := fun _ => Except.error 0 } "op" 0 "boom" none rfl (by decide)
      (fun j hj => absurd hj (Nat.not_lt_zero j)) rfl).1,
    (video_polling_bounds.2.2.2.2 stubEnv emptyStore "sess"
      ⟨"animate", none, none, some "veo-3", "default"⟩ none "stub" (by decide) rfl rfl
      (fun _ => rfl)).1⟩
